import Mathlib

/-!
# DLLInjector: the injection pipeline of `DLLInjector.cpp`

A shallow embedding of the functions of `src/DLLInjector/DLLInjector.cpp`
(`FindProcessIdW`, `FindProcessId`, `FindProcessHandle`, `WriteLibraryPath`,
`CreateLibraryThread`, `InjectLibrary`) together with the properties of the
pipeline they form.

Modelling conventions.

* A C string (`const char *`, `const wchar_t *`) is represented by the list of
  its (non-zero) code units before the terminator, so `strlen` is the length of
  the list.
* `DWORD`, `HANDLE`, `SIZE_T` and remote addresses are natural numbers; `NULL`
  is `0`.  No arithmetic on them can wrap in the code that is modelled.
* The operating system is a `World`: the answers the Win32 calls give.  The
  calls that create, use or release a cross-process resource are recorded, in
  program order, in the `trace` of the `State`, together with the set of open
  handles and the contents of the target address spaces.
* `ThrowError` prints and calls `exit(1)`: the run stops with the error kind of
  the call site, and nothing after it is executed.
-/

namespace DLLInjector

/-! ## Data model -/

abbrev DWORD := Nat
abbrev HANDLE := Nat
/-- Narrow string: the bytes before the terminating `0`. -/
abbrev CString := List Nat
/-- Wide string: the wide characters before the terminating `0`. -/
abbrev WString := List Nat

/-- The two fields of `PROCESSENTRY32` the program reads. -/
structure PROCESSENTRY32 where
  th32ProcessID : DWORD
  szExeFile : WString
deriving DecidableEq, Repr

/-- Start routines a remote thread can be given (the candidates named at the
`LOAD_METHOD` definition, line 5). -/
inductive Routine where
  | LoadLibraryA
  | LoadLibraryW
deriving DecidableEq, Repr

/-- Line 6: `#define LOAD_METHOD LoadLibraryA`. -/
def LOAD_METHOD : Routine := Routine.LoadLibraryA

/-- One error kind per `ThrowError` call site (lines 81, 103, 109, 128, 137,
154). -/
inductive InjectError where
  | EncodingConversionFailure
  | ProcessNotFound
  | HandleOpenFailure
  | MemoryAllocationFailure
  | MemoryWriteMismatch
  | RemoteThreadCreationFailure
deriving DecidableEq, Repr

/-- The Win32 calls of the program that create, use or release a cross-process
resource, with the arguments the program passes. -/
inductive Op where
  | CreateToolhelp32Snapshot
  | OpenProcess (dwProcessId : DWORD)
  | VirtualAllocEx (hProcess : HANDLE) (dwSize : Nat)
  | WriteProcessMemory (hProcess : HANDLE) (lpBaseAddress : Nat) (bytes : List Nat) (nSize : Nat)
  | CreateRemoteThread (hProcess : HANDLE) (lpStartAddress : Routine) (lpParameter : Nat)
  | CloseHandle (hObject : HANDLE)
deriving DecidableEq, Repr

def Op.isOpenProcess : Op → Bool
  | .OpenProcess _ => true
  | _ => false

def Op.isVirtualAllocEx : Op → Bool
  | .VirtualAllocEx _ _ => true
  | _ => false

def Op.isWriteProcessMemory : Op → Bool
  | .WriteProcessMemory _ _ _ _ => true
  | _ => false

def Op.isCreateRemoteThread : Op → Bool
  | .CreateRemoteThread _ _ _ => true
  | _ => false

def Op.isCloseHandle : Op → Bool
  | .CloseHandle _ => true
  | _ => false

/-- A locale's multibyte decoder: reads one character off the front of a byte
string, giving the wide character and the remaining bytes, or `none` on an
invalid multibyte sequence. -/
abbrev Locale := List Nat → Option (Nat × List Nat)

/-- The operating system and C runtime as seen by one run of the program. -/
structure World where
  /-- Multibyte decoder of the current locale, used by `mbstowcs_s`. -/
  locale : Locale
  /-- Handle returned by `CreateToolhelp32Snapshot`. -/
  hSnapshot : HANDLE
  /-- Entries of the snapshot, in the order `Process32First`/`Process32Next`
  yield them. -/
  processes : List PROCESSENTRY32
  /-- Result of `OpenProcess(PROCESS_ALL_ACCESS, FALSE, pid)`; `0` is `NULL`. -/
  OpenProcess : DWORD → HANDLE
  /-- Result of `VirtualAllocEx(hProc, NULL, size, MEM_COMMIT, PAGE_READWRITE)`;
  `0` is `NULL`. -/
  VirtualAllocEx : HANDLE → Nat → Nat
  /-- Number of bytes `WriteProcessMemory(hProc, base, bytes, ..)` transfers,
  which is what it stores in `*lpNumberOfBytesWritten`. -/
  transferred : HANDLE → Nat → List Nat → Nat
  /-- Result of `CreateRemoteThread(hProc, NULL, 0, start, arg, 0, NULL)`; `0`
  is `NULL`. -/
  CreateRemoteThread : HANDLE → Routine → Nat → HANDLE

/-- What a run has done so far. -/
structure State where
  /-- Resource operations performed, oldest first. -/
  trace : List Op
  /-- Handles currently open (acquired and not yet closed). -/
  handles : List HANDLE
  /-- Contents of the address space behind each process handle. -/
  memory : HANDLE → Nat → Nat

/-- State at program start: nothing done, nothing open. -/
def State.init (memory : HANDLE → Nat → Nat) : State :=
  { trace := [], handles := [], memory := memory }

/-- Result of a function that may leave through `ThrowError`. -/
abbrev Outcome (α : Type) := Except InjectError α × State

/-- Lines 12-23: report and `exit(1)`; the run ends here with the error kind of
the call site. -/
def ThrowError {α : Type} (e : InjectError) (s : State) : Outcome α :=
  (Except.error e, s)

/-! ## C runtime -/

/-- `strlen`: number of bytes before the terminator. -/
def strlen (str : CString) : Nat := str.length

/-- `wcscmp`: lexicographic comparison of two wide strings, negative, zero or
positive; a string that ends first is the smaller one (its terminator is below
every character). -/
def wcscmp : WString → WString → Int
  | [], [] => 0
  | [], _ :: _ => -1
  | _ :: _, [] => 1
  | a :: as, b :: bs =>
    if a < b then -1
    else if b < a then 1
    else wcscmp as bs

/-- Conversion loop of `mbstowcs_s`: stops at the end of the source, on an
invalid character (`none`), or once `count` wide characters are stored. -/
def mbstowcs_s.convert (locale : Locale) : Nat → List Nat → Option (List Nat)
  | 0, _ => some []
  | _ + 1, [] => some []
  | k + 1, b :: bs =>
    match locale (b :: bs) with
    | none => none
    | some (wc, rest) => (mbstowcs_s.convert locale k rest).map (wc :: ·)

/-- The CRT call `mbstowcs_s(&ret, wcstr, sizeInWords, mbstr, count)` as
documented: gives `(ret, wcstr)`. On success `ret` is the number of wide
characters stored, terminator included; on an invalid multibyte character, or
when the destination is too small, `ret` is `0` and the destination is the
empty string. -/
def mbstowcs_s (locale : Locale) (sizeInWords : Nat) (mbstr : CString) (count : Nat) :
    Nat × WString :=
  match mbstowcs_s.convert locale count mbstr with
  | none => (0, [])
  | some ws => if ws.length + 1 ≤ sizeInWords then (ws.length + 1, ws) else (0, [])

/-! ## Win32 calls -/

/-- `CreateToolhelp32Snapshot(TH32CS_SNAPPROCESS, NULL)`: the snapshot handle is
now open. -/
def CreateToolhelp32Snapshot (w : World) (s : State) : HANDLE × State :=
  (w.hSnapshot,
    { s with trace := s.trace ++ [Op.CreateToolhelp32Snapshot],
             handles := s.handles ++ [w.hSnapshot] })

/-- `OpenProcess(PROCESS_ALL_ACCESS, FALSE, procId)`: a non-`NULL` result is a
newly open handle. -/
def OpenProcess (w : World) (procId : DWORD) (s : State) : HANDLE × State :=
  let h := w.OpenProcess procId
  (h, { s with trace := s.trace ++ [Op.OpenProcess procId],
               handles := if h = 0 then s.handles else s.handles ++ [h] })

/-- `VirtualAllocEx(hProc, NULL, size, MEM_COMMIT, PAGE_READWRITE)`. -/
def VirtualAllocEx (w : World) (hProc : HANDLE) (size : Nat) (s : State) : Nat × State :=
  (w.VirtualAllocEx hProc size,
    { s with trace := s.trace ++ [Op.VirtualAllocEx hProc size] })

/-- Target memory after `bytes` have been stored from address `base` on. -/
def storeBytes (memory : HANDLE → Nat → Nat) (hProc : HANDLE) (base : Nat) (bytes : List Nat) :
    HANDLE → Nat → Nat :=
  fun h a =>
    if h = hProc ∧ base ≤ a ∧ a < base + bytes.length then bytes.getD (a - base) 0
    else memory h a

/-- `WriteProcessMemory(hProc, base, buffer, nSize, &bytesWritten)`: the first
`nSize` bytes of `buffer` are requested; the bytes the system transfers are
stored in the target, and their number is the value left in `bytesWritten`. -/
def WriteProcessMemory (w : World) (hProc : HANDLE) (base : Nat) (buffer : List Nat)
    (nSize : Nat) (s : State) : Nat × State :=
  let bytes := buffer.take nSize
  let n := w.transferred hProc base bytes
  (n, { s with trace := s.trace ++ [Op.WriteProcessMemory hProc base bytes nSize],
               memory := storeBytes s.memory hProc base (bytes.take n) })

/-- `CreateRemoteThread(hProc, NULL, 0, start, arg, 0, NULL)`: a non-`NULL`
result is a newly open thread handle. -/
def CreateRemoteThread (w : World) (hProc : HANDLE) (start : Routine) (arg : Nat) (s : State) :
    HANDLE × State :=
  let h := w.CreateRemoteThread hProc start arg
  (h, { s with trace := s.trace ++ [Op.CreateRemoteThread hProc start arg],
               handles := if h = 0 then s.handles else s.handles ++ [h] })

/-- `CloseHandle(h)`: one open instance of the handle is released. -/
def CloseHandle (h : HANDLE) (s : State) : State :=
  { s with trace := s.trace ++ [Op.CloseHandle h], handles := s.handles.erase h }

/-- What a harness reading `n` bytes of the target at `base` observes. -/
def readBytes (s : State) (hProc : HANDLE) (base n : Nat) : List Nat :=
  (List.range n).map (fun i => s.memory hProc (base + i))

/-! ## The program -/

/-- Lines 45-53, the `do { .. } while (Process32Next(..))` loop: `proc` is the
current entry, the list holds the entries `Process32Next` will still yield. -/
def FindProcessIdW.doWhile (wProcName : WString) : PROCESSENTRY32 → List PROCESSENTRY32 → DWORD
  | proc, [] =>
    if wcscmp wProcName proc.szExeFile = 0 then proc.th32ProcessID
    else 0
  | proc, next :: rest =>
    if wcscmp wProcName proc.szExeFile = 0 then proc.th32ProcessID
    else FindProcessIdW.doWhile wProcName next rest

/-- Lines 30-57. -/
def FindProcessIdW (w : World) (wProcName : WString) (s : State) : DWORD × State :=
  let (_hSnapshot, s1) := CreateToolhelp32Snapshot w s
  match w.processes with
  | [] => (0, s1)
  | proc :: rest => (FindProcessIdW.doWhile wProcName proc rest, s1)

/-- Lines 65-90. -/
def FindProcessId (w : World) (procName : CString) (s : State) : Outcome DWORD :=
  let procNameLen := strlen procName
  let (wProcNameLen, wProcName) := mbstowcs_s w.locale (procNameLen + 1) procName procNameLen
  if wProcNameLen ≠ procNameLen + 1 then
    ThrowError InjectError.EncodingConversionFailure s
  else
    let (procId, s1) := FindProcessIdW w wProcName s
    (Except.ok procId, s1)

/-- Lines 97-113. -/
def FindProcessHandle (w : World) (procName : CString) (s : State) : Outcome HANDLE :=
  match FindProcessId w procName s with
  | (Except.error e, s1) => (Except.error e, s1)
  | (Except.ok procId, s1) =>
    if procId = 0 then
      ThrowError InjectError.ProcessNotFound s1
    else
      let (hProc, s2) := OpenProcess w procId s1
      if hProc = 0 then
        ThrowError InjectError.HandleOpenFailure s2
      else
        (Except.ok hProc, s2)

/-- Lines 120-141. The buffer behind `libraryPath` is the path followed by its
terminator. -/
def WriteLibraryPath (w : World) (hProc : HANDLE) (libraryPath : CString) (s : State) :
    Outcome Nat :=
  let libraryPathSize := strlen libraryPath * 1
  let (lpAllocated, s1) := VirtualAllocEx w hProc libraryPathSize s
  if lpAllocated = 0 then
    ThrowError InjectError.MemoryAllocationFailure s1
  else
    let (bytesWritten, s2) :=
      WriteProcessMemory w hProc lpAllocated (libraryPath ++ [0]) libraryPathSize s1
    if bytesWritten ≠ libraryPathSize then
      ThrowError InjectError.MemoryWriteMismatch s2
    else
      (Except.ok lpAllocated, s2)

/-- Lines 147-158. -/
def CreateLibraryThread (w : World) (hProc : HANDLE) (lpLibraryPath : Nat) (s : State) :
    Outcome HANDLE :=
  let (hRemoteThread, s1) := CreateRemoteThread w hProc LOAD_METHOD lpLibraryPath s
  if hRemoteThread = 0 then
    ThrowError InjectError.RemoteThreadCreationFailure s1
  else
    (Except.ok hRemoteThread, s1)

/-- Lines 164-174. Reaching the end is the success report
(`"Injected successfully!"`). -/
def InjectLibrary (w : World) (procName libraryPath : CString) (s : State) : Outcome Unit :=
  match FindProcessHandle w procName s with
  | (Except.error e, s1) => (Except.error e, s1)
  | (Except.ok hProc, s1) =>
    match WriteLibraryPath w hProc libraryPath s1 with
    | (Except.error e, s2) => (Except.error e, s2)
    | (Except.ok lpLibraryPath, s2) =>
      match CreateLibraryThread w hProc lpLibraryPath s2 with
      | (Except.error e, s3) => (Except.error e, s3)
      | (Except.ok _hRemoteThread, s3) =>
        let s4 := CloseHandle hProc s3
        (Except.ok (), s4)

/-! ## Vocabulary of the properties -/

/-- First snapshot entry, in enumeration order, whose name is the target. -/
def firstMatch (processes : List PROCESSENTRY32) (name : WString) : Option PROCESSENTRY32 :=
  processes.find? (fun e => decide (e.szExeFile = name))

/-- Identifier of the first matching entry, `0` when there is none. -/
def resolved (processes : List PROCESSENTRY32) (name : WString) : DWORD :=
  match firstMatch processes name with
  | some e => e.th32ProcessID
  | none => 0

/-- The wide form `FindProcessId` computes for a narrow name (line 77). -/
def wideName (w : World) (procName : CString) : Nat × WString :=
  mbstowcs_s w.locale (strlen procName + 1) procName (strlen procName)

/-- Every byte is a 7-bit character other than the terminator. -/
def IsAscii (str : CString) : Prop := ∀ b ∈ str, 0 < b ∧ b < 128

instance (str : CString) : Decidable (IsAscii str) := by
  unfold IsAscii; infer_instance

/-- In this locale every 7-bit byte is a character of its own, with the same
code. -/
def AsciiCompatible (locale : Locale) : Prop :=
  ∀ b bs, 0 < b → b < 128 → locale (b :: bs) = some (b, bs)

/-- The "C" locale, in force when the program never calls `setlocale`: every
byte is one character. -/
def cLocale : Locale
  | [] => none
  | b :: bs => some (b, bs)

/-- A double-byte locale: a byte of 128 or more leads a two-byte character and
is invalid at the end of the string. -/
def dbcsLocale : Locale
  | [] => none
  | b :: bs =>
    if b < 128 then some (b, bs)
    else
      match bs with
      | [] => none
      | t :: rest => some (b * 256 + t, rest)

/-- Target memory that is zero everywhere. -/
def zeroMemory : HANDLE → Nat → Nat := fun _ _ => 0

/-- Code units of "sample.exe". -/
def sample_exe : List Nat := [115, 97, 109, 112, 108, 101, 46, 101, 120, 101]

/-- Code units of "ghost.exe". -/
def ghost_exe : List Nat := [103, 104, 111, 115, 116, 46, 101, 120, 101]

/-- Code units of "explorer.exe". -/
def explorer_exe : List Nat := [101, 120, 112, 108, 111, 114, 101, 114, 46, 101, 120, 101]

/-- Code units of the path `C:\lib\payload.dll` (single backslashes). -/
def payload_dll : List Nat :=
  [67, 58, 92, 108, 105, 98, 92, 112, 97, 121, 108, 111, 97, 100, 46, 100, 108, 108]

/-- Scenario A: "sample.exe" runs with identifier 4321 and every call
succeeds. -/
def scenarioA : World where
  locale := cLocale
  hSnapshot := 100
  processes := [⟨812, explorer_exe⟩, ⟨4321, sample_exe⟩]
  OpenProcess := fun pid => if pid = 4321 then 200 else 0
  VirtualAllocEx := fun _ _ => 65536
  transferred := fun _ _ bytes => bytes.length
  CreateRemoteThread := fun _ _ _ => 300

/-- Scenario A with a second process of the same name later in the
enumeration. -/
def scenarioDup : World :=
  { scenarioA with processes := [⟨812, explorer_exe⟩, ⟨4321, sample_exe⟩, ⟨977, sample_exe⟩] }

/-- Scenario A with an empty snapshot. -/
def scenarioEmpty : World := { scenarioA with processes := [] }

/-- Scenario A where `OpenProcess` is refused. -/
def scenarioDenied : World := { scenarioA with OpenProcess := fun _ => 0 }

/-- Scenario A where the cross-process write transfers one byte less than
requested. -/
def scenarioShort : World := { scenarioA with transferred := fun _ _ bytes => bytes.length - 1 }

/-- Scenario A where the matching process has identifier `0`. -/
def scenarioIdle : World := { scenarioA with processes := [⟨0, sample_exe⟩, ⟨812, explorer_exe⟩] }

/-- Scenario A under the double-byte locale. -/
def scenarioDbcs : World := { scenarioA with locale := dbcsLocale }

/-! ## Auxiliary facts -/

theorem wcscmp_eq_zero_iff (a b : WString) : wcscmp a b = 0 ↔ a = b := by
  induction a generalizing b with
  | nil => cases b <;> simp [wcscmp]
  | cons x xs ih =>
    cases b with
    | nil => simp [wcscmp]
    | cons y ys =>
      simp only [wcscmp, List.cons.injEq]
      by_cases h1 : x < y
      · simp [h1]; omega
      · by_cases h2 : y < x
        · simp [h1, h2]; omega
        · have : x = y := by omega
          simp [h1, h2, this, ih]

theorem doWhile_eq (name : WString) (proc : PROCESSENTRY32) (rest : List PROCESSENTRY32) :
    FindProcessIdW.doWhile name proc rest =
      match firstMatch (proc :: rest) name with
      | some e => e.th32ProcessID
      | none => 0 := by
  induction rest generalizing proc with
  | nil =>
    by_cases h : proc.szExeFile = name
    · simp [FindProcessIdW.doWhile, firstMatch, wcscmp_eq_zero_iff, h]
    · have h2 : ¬ name = proc.szExeFile := fun e => h e.symm
      simp [FindProcessIdW.doWhile, firstMatch, wcscmp_eq_zero_iff, h, h2]
  | cons next rest ih =>
    by_cases h : proc.szExeFile = name
    · simp [FindProcessIdW.doWhile, firstMatch, wcscmp_eq_zero_iff, h]
    · have h2 : ¬ name = proc.szExeFile := fun e => h e.symm
      have := ih next
      simp only [firstMatch] at this
      simp [FindProcessIdW.doWhile, firstMatch, wcscmp_eq_zero_iff, h, h2, this]

theorem FindProcessIdW_fst (w : World) (name : WString) (s : State) :
    (FindProcessIdW w name s).1 =
      match firstMatch w.processes name with
      | some e => e.th32ProcessID
      | none => 0 := by
  unfold FindProcessIdW
  cases hp : w.processes with
  | nil => simp [firstMatch, CreateToolhelp32Snapshot]
  | cons proc rest => simp [CreateToolhelp32Snapshot, doWhile_eq]

theorem FindProcessIdW_snd (w : World) (name : WString) (s : State) :
    (FindProcessIdW w name s).2 = (CreateToolhelp32Snapshot w s).2 := by
  unfold FindProcessIdW
  cases hp : w.processes <;> simp [CreateToolhelp32Snapshot]

theorem firstMatch_eq_none (processes : List PROCESSENTRY32) (name : WString) :
    firstMatch processes name = none ↔ ∀ e ∈ processes, e.szExeFile ≠ name := by
  simp [firstMatch, List.find?_eq_none]

theorem firstMatch_eq_some (processes : List PROCESSENTRY32) (name : WString)
    (e : PROCESSENTRY32) :
    firstMatch processes name = some e ↔
      e.szExeFile = name ∧ ∃ pre post, processes = pre ++ e :: post ∧
        ∀ x ∈ pre, x.szExeFile ≠ name := by
  simp [firstMatch, List.find?_eq_some]

theorem resolved_eq_zero_iff (processes : List PROCESSENTRY32) (name : WString) :
    resolved processes name = 0 ↔
      (∀ e ∈ processes, e.szExeFile ≠ name) ∨
      ∃ pre e post, processes = pre ++ e :: post ∧ (∀ x ∈ pre, x.szExeFile ≠ name) ∧
        e.szExeFile = name ∧ e.th32ProcessID = 0 := by
  unfold resolved
  cases hf : firstMatch processes name with
  | none =>
    simp only [true_iff]
    exact Or.inl ((firstMatch_eq_none _ _).1 hf)
  | some e =>
    obtain ⟨hname, pre, post, hsplit, hpre⟩ := (firstMatch_eq_some _ _ _).1 hf
    constructor
    · intro h0
      exact Or.inr ⟨pre, e, post, hsplit, hpre, hname, h0⟩
    · rintro (hnone | ⟨pre2, e2, post2, hsplit2, hpre2, hname2, h0⟩)
      · exact absurd hname (hnone e (by simp [hsplit]))
      · have : firstMatch processes name = some e2 :=
          (firstMatch_eq_some _ _ _).2 ⟨hname2, pre2, post2, hsplit2, hpre2⟩
        rw [hf] at this
        cases this
        exact h0

theorem FindProcessIdW_eq (w : World) (name : WString) (s : State) :
    FindProcessIdW w name s = (resolved w.processes name, (CreateToolhelp32Snapshot w s).2) := by
  apply Prod.ext
  · simpa [resolved] using FindProcessIdW_fst w name s
  · simpa using FindProcessIdW_snd w name s

theorem convert_ascii (locale : Locale) (hl : AsciiCompatible locale) (str : CString)
    (hs : IsAscii str) : mbstowcs_s.convert locale str.length str = some str := by
  induction str with
  | nil => simp [mbstowcs_s.convert]
  | cons b bs ih =>
    have hb := hs b (by simp)
    have hbs : IsAscii bs := fun x hx => hs x (by simp [hx])
    simp [mbstowcs_s.convert, hl b bs hb.1 hb.2, ih hbs]

theorem wideName_ascii (w : World) (hl : AsciiCompatible w.locale) (str : CString)
    (hs : IsAscii str) : wideName w str = (strlen str + 1, str) := by
  simp [wideName, mbstowcs_s, strlen, convert_ascii w.locale hl str hs]

theorem cLocale_asciiCompatible : AsciiCompatible cLocale := fun _ _ _ _ => rfl

theorem dbcsLocale_asciiCompatible : AsciiCompatible dbcsLocale := by
  intro b bs _ h
  simp [dbcsLocale, h]

theorem FindProcessId_of_converted (w : World) (procName : CString) (s : State)
    (h : (wideName w procName).1 = strlen procName + 1) :
    FindProcessId w procName s =
      (Except.ok (resolved w.processes (wideName w procName).2),
        (CreateToolhelp32Snapshot w s).2) := by
  unfold wideName at h
  simp [FindProcessId, wideName, h, FindProcessIdW_eq]

theorem FindProcessId_of_not_converted (w : World) (procName : CString) (s : State)
    (h : (wideName w procName).1 ≠ strlen procName + 1) :
    FindProcessId w procName s = (Except.error InjectError.EncodingConversionFailure, s) := by
  unfold wideName at h
  simp [FindProcessId, h, ThrowError]

theorem FindProcessHandle_of_converted (w : World) (procName : CString) (s : State)
    (h : (wideName w procName).1 = strlen procName + 1) :
    FindProcessHandle w procName s =
      if resolved w.processes (wideName w procName).2 = 0 then
        (Except.error InjectError.ProcessNotFound, (CreateToolhelp32Snapshot w s).2)
      else if w.OpenProcess (resolved w.processes (wideName w procName).2) = 0 then
        (Except.error InjectError.HandleOpenFailure,
          (OpenProcess w (resolved w.processes (wideName w procName).2)
            (CreateToolhelp32Snapshot w s).2).2)
      else
        (Except.ok (w.OpenProcess (resolved w.processes (wideName w procName).2)),
          (OpenProcess w (resolved w.processes (wideName w procName).2)
            (CreateToolhelp32Snapshot w s).2).2) := by
  simp only [FindProcessHandle, FindProcessId_of_converted w procName s h, ThrowError]
  split_ifs <;> simp_all [OpenProcess]

theorem FindProcessHandle_of_not_converted (w : World) (procName : CString) (s : State)
    (h : (wideName w procName).1 ≠ strlen procName + 1) :
    FindProcessHandle w procName s =
      (Except.error InjectError.EncodingConversionFailure, s) := by
  simp [FindProcessHandle, FindProcessId_of_not_converted w procName s h]

theorem FindProcessHandle_not_found (w : World) (procName : CString) (s : State)
    (h : (wideName w procName).1 = strlen procName + 1)
    (h0 : resolved w.processes (wideName w procName).2 = 0) :
    FindProcessHandle w procName s =
      (Except.error InjectError.ProcessNotFound, (CreateToolhelp32Snapshot w s).2) := by
  rw [FindProcessHandle_of_converted w procName s h, if_pos h0]

theorem FindProcessHandle_denied (w : World) (procName : CString) (s : State)
    (h : (wideName w procName).1 = strlen procName + 1)
    (h0 : resolved w.processes (wideName w procName).2 ≠ 0)
    (hopen : w.OpenProcess (resolved w.processes (wideName w procName).2) = 0) :
    FindProcessHandle w procName s =
      (Except.error InjectError.HandleOpenFailure,
        (OpenProcess w (resolved w.processes (wideName w procName).2)
          (CreateToolhelp32Snapshot w s).2).2) := by
  rw [FindProcessHandle_of_converted w procName s h, if_neg h0, if_pos hopen]

theorem FindProcessHandle_opened (w : World) (procName : CString) (s : State)
    (h : (wideName w procName).1 = strlen procName + 1)
    (h0 : resolved w.processes (wideName w procName).2 ≠ 0)
    (hopen : w.OpenProcess (resolved w.processes (wideName w procName).2) ≠ 0) :
    FindProcessHandle w procName s =
      (Except.ok (w.OpenProcess (resolved w.processes (wideName w procName).2)),
        (OpenProcess w (resolved w.processes (wideName w procName).2)
          (CreateToolhelp32Snapshot w s).2).2) := by
  rw [FindProcessHandle_of_converted w procName s h, if_neg h0, if_neg hopen]

theorem take_strlen_buffer (str : CString) : (str ++ [0]).take (strlen str) = str := by
  simp [strlen]

theorem WriteLibraryPath_eq (w : World) (hProc : HANDLE) (libraryPath : CString) (s : State) :
    WriteLibraryPath w hProc libraryPath s =
      if w.VirtualAllocEx hProc (strlen libraryPath) = 0 then
        (Except.error InjectError.MemoryAllocationFailure,
          (VirtualAllocEx w hProc (strlen libraryPath) s).2)
      else if w.transferred hProc (w.VirtualAllocEx hProc (strlen libraryPath)) libraryPath
          ≠ strlen libraryPath then
        (Except.error InjectError.MemoryWriteMismatch,
          (WriteProcessMemory w hProc (w.VirtualAllocEx hProc (strlen libraryPath))
            (libraryPath ++ [0]) (strlen libraryPath)
            (VirtualAllocEx w hProc (strlen libraryPath) s).2).2)
      else
        (Except.ok (w.VirtualAllocEx hProc (strlen libraryPath)),
          (WriteProcessMemory w hProc (w.VirtualAllocEx hProc (strlen libraryPath))
            (libraryPath ++ [0]) (strlen libraryPath)
            (VirtualAllocEx w hProc (strlen libraryPath) s).2).2) := by
  simp only [WriteLibraryPath, Nat.mul_one, VirtualAllocEx, WriteProcessMemory, ThrowError,
    take_strlen_buffer]

theorem CreateLibraryThread_eq (w : World) (hProc : HANDLE) (lpLibraryPath : Nat) (s : State) :
    CreateLibraryThread w hProc lpLibraryPath s =
      if w.CreateRemoteThread hProc LOAD_METHOD lpLibraryPath = 0 then
        (Except.error InjectError.RemoteThreadCreationFailure,
          (CreateRemoteThread w hProc LOAD_METHOD lpLibraryPath s).2)
      else
        (Except.ok (w.CreateRemoteThread hProc LOAD_METHOD lpLibraryPath),
          (CreateRemoteThread w hProc LOAD_METHOD lpLibraryPath s).2) := by
  simp only [CreateLibraryThread, CreateRemoteThread, ThrowError]

theorem InjectLibrary_of_handle (w : World) (procName libraryPath : CString) (s s1 : State)
    (hProc : HANDLE) (h : FindProcessHandle w procName s = (Except.ok hProc, s1)) :
    InjectLibrary w procName libraryPath s =
      match WriteLibraryPath w hProc libraryPath s1 with
      | (Except.error e, s2) => (Except.error e, s2)
      | (Except.ok lpLibraryPath, s2) =>
        match CreateLibraryThread w hProc lpLibraryPath s2 with
        | (Except.error e, s3) => (Except.error e, s3)
        | (Except.ok _, s3) => (Except.ok (), CloseHandle hProc s3) := by
  simp only [InjectLibrary, h]

theorem InjectLibrary_of_error (w : World) (procName libraryPath : CString) (s s1 : State)
    (e : InjectError) (h : FindProcessHandle w procName s = (Except.error e, s1)) :
    InjectLibrary w procName libraryPath s = (Except.error e, s1) := by
  simp only [InjectLibrary, h]

/-- Once a handle is open, the run can only end in success or in one of the
three errors of the later stages. -/
theorem InjectLibrary_of_handle_cases (w : World) (procName libraryPath : CString)
    (s s1 : State) (hProc : HANDLE)
    (h : FindProcessHandle w procName s = (Except.ok hProc, s1)) :
    (InjectLibrary w procName libraryPath s).1 = Except.ok () ∨
    (InjectLibrary w procName libraryPath s).1 =
      Except.error InjectError.MemoryAllocationFailure ∨
    (InjectLibrary w procName libraryPath s).1 =
      Except.error InjectError.MemoryWriteMismatch ∨
    (InjectLibrary w procName libraryPath s).1 =
      Except.error InjectError.RemoteThreadCreationFailure := by
  rw [InjectLibrary_of_handle w procName libraryPath s s1 hProc h, WriteLibraryPath_eq]
  split_ifs
  · simp
  · simp
  · simp only [CreateLibraryThread_eq]
    split_ifs <;> simp

theorem readBytes_storeBytes (memory : HANDLE → Nat → Nat) (hProc : HANDLE) (base : Nat)
    (bytes : List Nat) :
    (List.range bytes.length).map (fun i => storeBytes memory hProc base bytes hProc (base + i))
      = bytes := by
  apply List.ext_getElem
  · simp
  · intro i h1 h2
    simp only [List.length_map, List.length_range] at h1
    simp [storeBytes, h1, List.getD_eq_getElem?_getD, List.getElem?_eq_getElem h1]

theorem FindProcessHandle_ok_inv (w : World) (procName : CString) (s : State) (hProc : HANDLE)
    (h : (FindProcessHandle w procName s).1 = Except.ok hProc) :
    (wideName w procName).1 = strlen procName + 1 ∧
    resolved w.processes (wideName w procName).2 ≠ 0 ∧
    w.OpenProcess (resolved w.processes (wideName w procName).2) = hProc ∧ hProc ≠ 0 := by
  by_cases hconv : (wideName w procName).1 = strlen procName + 1
  · by_cases h0 : resolved w.processes (wideName w procName).2 = 0
    · rw [FindProcessHandle_not_found w procName s hconv h0] at h
      simp at h
    · by_cases hopen : w.OpenProcess (resolved w.processes (wideName w procName).2) = 0
      · rw [FindProcessHandle_denied w procName s hconv h0 hopen] at h
        simp at h
      · rw [FindProcessHandle_opened w procName s hconv h0 hopen] at h
        simp only [Except.ok.injEq] at h
        exact ⟨hconv, h0, h, h ▸ hopen⟩
  · rw [FindProcessHandle_of_not_converted w procName s hconv] at h
    simp at h

/-- The run when every stage succeeds. -/
theorem InjectLibrary_success (w : World) (procName libraryPath : CString) (s : State)
    (hconv : (wideName w procName).1 = strlen procName + 1)
    (h0 : resolved w.processes (wideName w procName).2 ≠ 0)
    (hopen : w.OpenProcess (resolved w.processes (wideName w procName).2) ≠ 0)
    (halloc : w.VirtualAllocEx (w.OpenProcess (resolved w.processes (wideName w procName).2))
      (strlen libraryPath) ≠ 0)
    (hwrite : w.transferred (w.OpenProcess (resolved w.processes (wideName w procName).2))
      (w.VirtualAllocEx (w.OpenProcess (resolved w.processes (wideName w procName).2))
        (strlen libraryPath)) libraryPath = strlen libraryPath)
    (hthread : w.CreateRemoteThread
      (w.OpenProcess (resolved w.processes (wideName w procName).2)) LOAD_METHOD
      (w.VirtualAllocEx (w.OpenProcess (resolved w.processes (wideName w procName).2))
        (strlen libraryPath)) ≠ 0) :
    (InjectLibrary w procName libraryPath s).1 = Except.ok () ∧
    (InjectLibrary w procName libraryPath s).2.trace = s.trace ++
      [Op.CreateToolhelp32Snapshot,
       Op.OpenProcess (resolved w.processes (wideName w procName).2),
       Op.VirtualAllocEx (w.OpenProcess (resolved w.processes (wideName w procName).2))
         (strlen libraryPath),
       Op.WriteProcessMemory (w.OpenProcess (resolved w.processes (wideName w procName).2))
         (w.VirtualAllocEx (w.OpenProcess (resolved w.processes (wideName w procName).2))
           (strlen libraryPath)) libraryPath (strlen libraryPath),
       Op.CreateRemoteThread (w.OpenProcess (resolved w.processes (wideName w procName).2))
         Routine.LoadLibraryA
         (w.VirtualAllocEx (w.OpenProcess (resolved w.processes (wideName w procName).2))
           (strlen libraryPath)),
       Op.CloseHandle (w.OpenProcess (resolved w.processes (wideName w procName).2))] ∧
    (InjectLibrary w procName libraryPath s).2.handles =
      (s.handles ++ [w.hSnapshot,
        w.OpenProcess (resolved w.processes (wideName w procName).2),
        w.CreateRemoteThread (w.OpenProcess (resolved w.processes (wideName w procName).2))
          LOAD_METHOD
          (w.VirtualAllocEx (w.OpenProcess (resolved w.processes (wideName w procName).2))
            (strlen libraryPath))]).erase
        (w.OpenProcess (resolved w.processes (wideName w procName).2)) := by
  rw [InjectLibrary_of_handle w procName libraryPath s _ _
    (FindProcessHandle_opened w procName s hconv h0 hopen), WriteLibraryPath_eq]
  simp only [halloc, hwrite, if_false, ne_eq, not_true_eq_false, CreateLibraryThread_eq, hthread]
  have hthread2 := hthread
  simp only [LOAD_METHOD] at hthread2
  simp [CloseHandle, CreateRemoteThread, WriteProcessMemory, VirtualAllocEx, OpenProcess,
    CreateToolhelp32Snapshot, hopen, hthread2, take_strlen_buffer, LOAD_METHOD]

/-- Success forces every stage to have succeeded. -/
theorem InjectLibrary_ok_inv (w : World) (procName libraryPath : CString) (s : State)
    (h : (InjectLibrary w procName libraryPath s).1 = Except.ok ()) :
    (wideName w procName).1 = strlen procName + 1 ∧
    resolved w.processes (wideName w procName).2 ≠ 0 ∧
    w.OpenProcess (resolved w.processes (wideName w procName).2) ≠ 0 ∧
    w.VirtualAllocEx (w.OpenProcess (resolved w.processes (wideName w procName).2))
      (strlen libraryPath) ≠ 0 ∧
    w.transferred (w.OpenProcess (resolved w.processes (wideName w procName).2))
      (w.VirtualAllocEx (w.OpenProcess (resolved w.processes (wideName w procName).2))
        (strlen libraryPath)) libraryPath = strlen libraryPath ∧
    w.CreateRemoteThread
      (w.OpenProcess (resolved w.processes (wideName w procName).2)) LOAD_METHOD
      (w.VirtualAllocEx (w.OpenProcess (resolved w.processes (wideName w procName).2))
        (strlen libraryPath)) ≠ 0 := by
  cases hfh : FindProcessHandle w procName s with
  | mk r s1 =>
    cases r with
    | error e =>
      rw [InjectLibrary_of_error w procName libraryPath s s1 e hfh] at h
      simp at h
    | ok hProc =>
      obtain ⟨hconv, h0, hopen, hne⟩ :=
        FindProcessHandle_ok_inv w procName s hProc (by rw [hfh])
      subst hopen
      rw [InjectLibrary_of_handle w procName libraryPath s s1 _ hfh, WriteLibraryPath_eq] at h
      refine ⟨hconv, h0, hne, ?_⟩
      by_cases ha : w.VirtualAllocEx (w.OpenProcess (resolved w.processes (wideName w procName).2))
          (strlen libraryPath) = 0
      · simp [ha] at h
      · by_cases hw : w.transferred (w.OpenProcess (resolved w.processes (wideName w procName).2))
            (w.VirtualAllocEx (w.OpenProcess (resolved w.processes (wideName w procName).2))
              (strlen libraryPath)) libraryPath = strlen libraryPath
        · by_cases ht : w.CreateRemoteThread
              (w.OpenProcess (resolved w.processes (wideName w procName).2)) LOAD_METHOD
              (w.VirtualAllocEx (w.OpenProcess (resolved w.processes (wideName w procName).2))
                (strlen libraryPath)) = 0
          · simp [ha, hw, CreateLibraryThread_eq, ht] at h
          · exact ⟨ha, hw, ht⟩
        · simp [ha, hw] at h

/-! ## Process resolution -/

/-- C1. When some snapshot entry carries the target name, `FindProcessIdW`
returns the identifier of the first such entry in enumeration order; when
exactly one entry carries the name, it returns that entry's identifier. -/
theorem FindProcessIdW_returns_first_match (w : World) (wProcName : WString) (s : State)
    (h : ∃ e ∈ w.processes, e.szExeFile = wProcName) :
    (∃ pre e post, w.processes = pre ++ e :: post ∧ (∀ x ∈ pre, x.szExeFile ≠ wProcName) ∧
        e.szExeFile = wProcName ∧ (FindProcessIdW w wProcName s).1 = e.th32ProcessID) ∧
    (∀ e, w.processes.filter (fun x => decide (x.szExeFile = wProcName)) = [e] →
        (FindProcessIdW w wProcName s).1 = e.th32ProcessID) := by
  rw [FindProcessIdW_eq]
  obtain ⟨e0, he0, hn0⟩ := h
  cases hf : firstMatch w.processes wProcName with
  | none => exact absurd hn0 ((firstMatch_eq_none _ _).1 hf e0 he0)
  | some e =>
    obtain ⟨hname, pre, post, hsplit, hpre⟩ := (firstMatch_eq_some _ _ _).1 hf
    refine ⟨⟨pre, e, post, hsplit, hpre, hname, by simp [resolved, hf]⟩, ?_⟩
    intro e1 hfil
    have hpre2 : pre.filter (fun x => decide (x.szExeFile = wProcName)) = [] := by
      simpa [List.filter_eq_nil_iff] using hpre
    rw [hsplit, List.filter_append, hpre2, List.filter_cons] at hfil
    simp only [hname, decide_True, if_true, List.nil_append, List.cons.injEq] at hfil
    simp [resolved, hf, hfil.1]

/-- Witness of C1: with two processes named "sample.exe", the first one in
enumeration order is returned. -/
theorem FindProcessIdW_returns_first_match_witness :
    (∃ pre e post, scenarioDup.processes = pre ++ e :: post ∧
        (∀ x ∈ pre, x.szExeFile ≠ sample_exe) ∧ e.szExeFile = sample_exe ∧
        (FindProcessIdW scenarioDup sample_exe (State.init zeroMemory)).1 = e.th32ProcessID) ∧
    (∀ e, scenarioDup.processes.filter (fun x => decide (x.szExeFile = sample_exe)) = [e] →
        (FindProcessIdW scenarioDup sample_exe (State.init zeroMemory)).1 = e.th32ProcessID) :=
  FindProcessIdW_returns_first_match scenarioDup sample_exe (State.init zeroMemory)
    ⟨⟨4321, sample_exe⟩, by decide, rfl⟩

/-- C2. When the wide form of the target name equals no snapshot entry's name
(in particular when the snapshot is empty), `InjectLibrary` ends with
`ProcessNotFound` having only taken the snapshot: no `OpenProcess`, remote
allocation, remote write or remote thread creation is attempted. -/
theorem InjectLibrary_process_not_found (w : World) (procName libraryPath : CString)
    (memory : HANDLE → Nat → Nat)
    (hconv : (wideName w procName).1 = strlen procName + 1)
    (hnone : ∀ e ∈ w.processes, e.szExeFile ≠ (wideName w procName).2) :
    (InjectLibrary w procName libraryPath (State.init memory)).1 =
        Except.error InjectError.ProcessNotFound ∧
    (InjectLibrary w procName libraryPath (State.init memory)).2.trace =
        [Op.CreateToolhelp32Snapshot] ∧
    ∀ op ∈ (InjectLibrary w procName libraryPath (State.init memory)).2.trace,
      op.isOpenProcess = false ∧ op.isVirtualAllocEx = false ∧
      op.isWriteProcessMemory = false ∧ op.isCreateRemoteThread = false := by
  have h0 : resolved w.processes (wideName w procName).2 = 0 :=
    (resolved_eq_zero_iff _ _).2 (Or.inl hnone)
  have hrun : InjectLibrary w procName libraryPath (State.init memory) =
      (Except.error InjectError.ProcessNotFound,
        (CreateToolhelp32Snapshot w (State.init memory)).2) := by
    exact InjectLibrary_of_error w procName libraryPath _ _ _
      (FindProcessHandle_not_found w procName _ hconv h0)
  rw [hrun]
  simp [CreateToolhelp32Snapshot, State.init, Op.isOpenProcess, Op.isVirtualAllocEx,
    Op.isWriteProcessMemory, Op.isCreateRemoteThread]

/-- Witness of C2 (Scenario B): no process named "ghost.exe" is running. -/
theorem InjectLibrary_process_not_found_witness :
    (InjectLibrary scenarioA ghost_exe payload_dll (State.init zeroMemory)).1 =
        Except.error InjectError.ProcessNotFound ∧
    (InjectLibrary scenarioA ghost_exe payload_dll (State.init zeroMemory)).2.trace =
        [Op.CreateToolhelp32Snapshot] ∧
    ∀ op ∈ (InjectLibrary scenarioA ghost_exe payload_dll (State.init zeroMemory)).2.trace,
      op.isOpenProcess = false ∧ op.isVirtualAllocEx = false ∧
      op.isWriteProcessMemory = false ∧ op.isCreateRemoteThread = false :=
  InjectLibrary_process_not_found scenarioA ghost_exe payload_dll zeroMemory
    (by decide) (by decide)

/-- C8, the claim refuted. On the match path, on the no-match path and on the
empty-snapshot path the snapshot handle is still among the open handles when
`FindProcessIdW` has returned. -/
theorem FindProcessIdW_snapshot_still_open :
    ¬ (scenarioA.hSnapshot ∉
        (FindProcessIdW scenarioA sample_exe (State.init zeroMemory)).2.handles) ∧
    ¬ (scenarioA.hSnapshot ∉
        (FindProcessIdW scenarioA ghost_exe (State.init zeroMemory)).2.handles) ∧
    ¬ (scenarioEmpty.hSnapshot ∉
        (FindProcessIdW scenarioEmpty sample_exe (State.init zeroMemory)).2.handles) := by
  decide

/-- C8 as amended. `FindProcessIdW` acquires the snapshot and never releases
it: on every path its only resource operation is `CreateToolhelp32Snapshot`, no
`CloseHandle` is performed, and the snapshot handle is open on return. -/
theorem FindProcessIdW_never_releases_snapshot (w : World) (wProcName : WString) (s : State) :
    (FindProcessIdW w wProcName s).2.trace = s.trace ++ [Op.CreateToolhelp32Snapshot] ∧
    (FindProcessIdW w wProcName s).2.handles = s.handles ++ [w.hSnapshot] ∧
    w.hSnapshot ∈ (FindProcessIdW w wProcName s).2.handles := by
  rw [FindProcessIdW_eq]
  simp [CreateToolhelp32Snapshot]

/-- C9. If `mbstowcs_s` does not report `strlen procName + 1` wide characters,
`FindProcessId` ends with `EncodingConversionFailure`, an error other than
`ProcessNotFound`, in the state it started in (no snapshot is taken). For an
ASCII name in an ASCII-compatible locale the conversion reports
`strlen procName + 1` characters and that error is not raised. -/
theorem FindProcessId_conversion (w : World) (procName : CString) (s : State) :
    ((mbstowcs_s w.locale (strlen procName + 1) procName (strlen procName)).1
          ≠ strlen procName + 1 →
        FindProcessId w procName s = (Except.error InjectError.EncodingConversionFailure, s) ∧
        InjectError.EncodingConversionFailure ≠ InjectError.ProcessNotFound ∧
        Op.CreateToolhelp32Snapshot ∉
          (FindProcessId w procName (State.init s.memory)).2.trace) ∧
    (AsciiCompatible w.locale → IsAscii procName →
        mbstowcs_s w.locale (strlen procName + 1) procName (strlen procName)
          = (strlen procName + 1, procName) ∧
        (FindProcessId w procName s).1 ≠ Except.error InjectError.EncodingConversionFailure) := by
  constructor
  · intro h
    refine ⟨FindProcessId_of_not_converted w procName s h, by decide, ?_⟩
    rw [FindProcessId_of_not_converted w procName _ h]
    simp [State.init]
  · intro hl hs
    have hw := wideName_ascii w hl procName hs
    refine ⟨hw, ?_⟩
    rw [FindProcessId_of_converted w procName s (by rw [hw])]
    simp

/-- Witness of C9: under the double-byte locale the two-byte name `[200, 65]`
converts to one wide character, so the error is raised; "sample.exe" converts
to eleven wide characters, terminator included, and it is not. -/
theorem FindProcessId_conversion_witness :
    (FindProcessId scenarioDbcs [200, 65] (State.init zeroMemory)).1 =
        Except.error InjectError.EncodingConversionFailure ∧
    (FindProcessId scenarioDbcs [200, 65] (State.init zeroMemory)).2.trace = [] ∧
    mbstowcs_s scenarioDbcs.locale (strlen sample_exe + 1) sample_exe (strlen sample_exe)
        = (strlen sample_exe + 1, sample_exe) ∧
    (FindProcessId scenarioDbcs sample_exe (State.init zeroMemory)).1 ≠
        Except.error InjectError.EncodingConversionFailure :=
  ⟨congrArg Prod.fst
      ((FindProcessId_conversion scenarioDbcs [200, 65] (State.init zeroMemory)).1
        (by decide)).1,
    congrArg (fun r => r.2.trace)
      ((FindProcessId_conversion scenarioDbcs [200, 65] (State.init zeroMemory)).1
        (by decide)).1,
    (FindProcessId_conversion scenarioDbcs sample_exe (State.init zeroMemory)).2
      dbcsLocale_asciiCompatible (by decide)⟩

/-- C10. When the conversion of the target name succeeds, `InjectLibrary` ends
with `ProcessNotFound` exactly when no snapshot entry carries the name or the
first entry that carries it has identifier `0`; in that case no `OpenProcess`
is attempted. -/
theorem InjectLibrary_process_not_found_iff (w : World) (procName libraryPath : CString)
    (memory : HANDLE → Nat → Nat)
    (hconv : (wideName w procName).1 = strlen procName + 1) :
    ((InjectLibrary w procName libraryPath (State.init memory)).1 =
          Except.error InjectError.ProcessNotFound ↔
        ((∀ e ∈ w.processes, e.szExeFile ≠ (wideName w procName).2) ∨
          ∃ pre e post, w.processes = pre ++ e :: post ∧
            (∀ x ∈ pre, x.szExeFile ≠ (wideName w procName).2) ∧
            e.szExeFile = (wideName w procName).2 ∧ e.th32ProcessID = 0)) ∧
    ((InjectLibrary w procName libraryPath (State.init memory)).1 =
          Except.error InjectError.ProcessNotFound →
        ∀ op ∈ (InjectLibrary w procName libraryPath (State.init memory)).2.trace,
          op.isOpenProcess = false) := by
  rw [← resolved_eq_zero_iff]
  by_cases h0 : resolved w.processes (wideName w procName).2 = 0
  · have hrun : InjectLibrary w procName libraryPath (State.init memory) =
        (Except.error InjectError.ProcessNotFound,
          (CreateToolhelp32Snapshot w (State.init memory)).2) := by
      exact InjectLibrary_of_error w procName libraryPath _ _ _
        (FindProcessHandle_not_found w procName _ hconv h0)
    rw [hrun]
    simp [h0, CreateToolhelp32Snapshot, State.init, Op.isOpenProcess]
  · have hne : (InjectLibrary w procName libraryPath (State.init memory)).1 ≠
        Except.error InjectError.ProcessNotFound := by
      by_cases hopen : w.OpenProcess (resolved w.processes (wideName w procName).2) = 0
      · rw [InjectLibrary_of_error w procName libraryPath _ _ _
          (FindProcessHandle_denied w procName _ hconv h0 hopen)]
        simp
      · have hh := InjectLibrary_of_handle_cases w procName libraryPath _ _ _
          (FindProcessHandle_opened w procName (State.init memory) hconv h0 hopen)
        rcases hh with hh | hh | hh | hh <;> rw [hh] <;> simp
    simp [hne, h0]

/-- Witness of C10: a process named "sample.exe" with identifier `0` is reported
as not found. -/
theorem InjectLibrary_process_not_found_iff_witness :
    (InjectLibrary scenarioIdle sample_exe payload_dll (State.init zeroMemory)).1 =
        Except.error InjectError.ProcessNotFound ∧
    ∀ op ∈ (InjectLibrary scenarioIdle sample_exe payload_dll (State.init zeroMemory)).2.trace,
      op.isOpenProcess = false :=
  have h := InjectLibrary_process_not_found_iff scenarioIdle sample_exe payload_dll zeroMemory
    (by decide)
  have hfail := h.1.2 (Or.inr ⟨[], ⟨0, sample_exe⟩, [⟨812, explorer_exe⟩], rfl,
    by simp, by decide, rfl⟩)
  ⟨hfail, h.2 hfail⟩

/-! ## Handle acquisition -/

/-- C6. When the resolved identifier is not `0` and `OpenProcess` returns
`NULL` for it, `InjectLibrary` ends with `HandleOpenFailure` after the snapshot
and that one `OpenProcess` call: no remote allocation, remote write or remote
thread creation is attempted. -/
theorem InjectLibrary_handle_open_failure (w : World) (procName libraryPath : CString)
    (memory : HANDLE → Nat → Nat)
    (hconv : (wideName w procName).1 = strlen procName + 1)
    (hpid : (FindProcessIdW w (wideName w procName).2 (State.init memory)).1 ≠ 0)
    (hopen : w.OpenProcess (FindProcessIdW w (wideName w procName).2 (State.init memory)).1 = 0) :
    (InjectLibrary w procName libraryPath (State.init memory)).1 =
        Except.error InjectError.HandleOpenFailure ∧
    (InjectLibrary w procName libraryPath (State.init memory)).2.trace =
        [Op.CreateToolhelp32Snapshot,
         Op.OpenProcess (FindProcessIdW w (wideName w procName).2 (State.init memory)).1] ∧
    ∀ op ∈ (InjectLibrary w procName libraryPath (State.init memory)).2.trace,
      op.isVirtualAllocEx = false ∧ op.isWriteProcessMemory = false ∧
      op.isCreateRemoteThread = false := by
  rw [FindProcessIdW_eq] at hpid hopen
  rw [FindProcessIdW_eq, InjectLibrary_of_error w procName libraryPath _ _ _
    (FindProcessHandle_denied w procName _ hconv hpid hopen)]
  simp [OpenProcess, CreateToolhelp32Snapshot, State.init, Op.isVirtualAllocEx,
    Op.isWriteProcessMemory, Op.isCreateRemoteThread]

/-- Witness of C6: "sample.exe" is found with identifier 4321 and `OpenProcess`
is refused. -/
theorem InjectLibrary_handle_open_failure_witness :
    (InjectLibrary scenarioDenied sample_exe payload_dll (State.init zeroMemory)).1 =
        Except.error InjectError.HandleOpenFailure ∧
    (InjectLibrary scenarioDenied sample_exe payload_dll (State.init zeroMemory)).2.trace =
        [Op.CreateToolhelp32Snapshot,
         Op.OpenProcess (FindProcessIdW scenarioDenied
           (wideName scenarioDenied sample_exe).2 (State.init zeroMemory)).1] ∧
    ∀ op ∈ (InjectLibrary scenarioDenied sample_exe payload_dll (State.init zeroMemory)).2.trace,
      op.isVirtualAllocEx = false ∧ op.isWriteProcessMemory = false ∧
      op.isCreateRemoteThread = false :=
  InjectLibrary_handle_open_failure scenarioDenied sample_exe payload_dll zeroMemory
    (by decide) (by decide) (by decide)

/-! ## Remote memory staging -/

/-- C3. For a library path of length `L` (any bytes, so in particular any ASCII
path, and also the empty one), `WriteLibraryPath` first requests an allocation
of exactly `L` bytes; when the allocation gives an address, it issues exactly
one write, of the `L` bytes of the path without the terminator, to that
address; and when the write reports `L` bytes, the function returns the
allocated address and the `L` bytes read back at it are the path. -/
theorem WriteLibraryPath_stages (w : World) (hProc : HANDLE) (libraryPath : CString)
    (s : State) :
    (∃ rest, (WriteLibraryPath w hProc libraryPath s).2.trace =
        s.trace ++ Op.VirtualAllocEx hProc (strlen libraryPath) :: rest) ∧
    (w.VirtualAllocEx hProc (strlen libraryPath) ≠ 0 →
      (WriteLibraryPath w hProc libraryPath s).2.trace =
        s.trace ++ [Op.VirtualAllocEx hProc (strlen libraryPath),
          Op.WriteProcessMemory hProc (w.VirtualAllocEx hProc (strlen libraryPath))
            libraryPath (strlen libraryPath)] ∧
      (w.transferred hProc (w.VirtualAllocEx hProc (strlen libraryPath)) libraryPath
          = strlen libraryPath →
        (WriteLibraryPath w hProc libraryPath s).1 =
          Except.ok (w.VirtualAllocEx hProc (strlen libraryPath)) ∧
        readBytes (WriteLibraryPath w hProc libraryPath s).2 hProc
          (w.VirtualAllocEx hProc (strlen libraryPath)) (strlen libraryPath) = libraryPath)) := by
  refine ⟨?_, ?_⟩
  · rw [WriteLibraryPath_eq]
    split_ifs <;> simp [VirtualAllocEx, WriteProcessMemory, take_strlen_buffer]
  · intro ha
    have htrace : (WriteLibraryPath w hProc libraryPath s).2.trace =
        s.trace ++ [Op.VirtualAllocEx hProc (strlen libraryPath),
          Op.WriteProcessMemory hProc (w.VirtualAllocEx hProc (strlen libraryPath))
            libraryPath (strlen libraryPath)] := by
      rw [WriteLibraryPath_eq, if_neg ha]
      split_ifs <;> simp [VirtualAllocEx, WriteProcessMemory, take_strlen_buffer]
    refine ⟨htrace, ?_⟩
    intro hw
    rw [WriteLibraryPath_eq, if_neg ha, if_neg (not_not.2 hw)]
    refine ⟨rfl, ?_⟩
    have htake : List.take (strlen libraryPath) libraryPath = libraryPath := by
      simp [strlen]
    simp only [readBytes, WriteProcessMemory, take_strlen_buffer, hw, htake]
    exact readBytes_storeBytes _ hProc _ libraryPath

/-- Witness of C3: the 18-byte path of Scenario A, and the empty path. -/
theorem WriteLibraryPath_stages_witness :
    ((WriteLibraryPath scenarioA 200 payload_dll (State.init zeroMemory)).2.trace =
        [Op.VirtualAllocEx 200 18, Op.WriteProcessMemory 200 65536 payload_dll 18] ∧
      (WriteLibraryPath scenarioA 200 payload_dll (State.init zeroMemory)).1 = Except.ok 65536 ∧
      readBytes (WriteLibraryPath scenarioA 200 payload_dll (State.init zeroMemory)).2
        200 65536 18 = payload_dll) ∧
    ((WriteLibraryPath scenarioA 200 [] (State.init zeroMemory)).2.trace =
        [Op.VirtualAllocEx 200 0, Op.WriteProcessMemory 200 65536 [] 0] ∧
      (WriteLibraryPath scenarioA 200 [] (State.init zeroMemory)).1 = Except.ok 65536 ∧
      readBytes (WriteLibraryPath scenarioA 200 [] (State.init zeroMemory)).2
        200 65536 0 = []) :=
  have h1 := (WriteLibraryPath_stages scenarioA 200 payload_dll (State.init zeroMemory)).2
    (by decide)
  have h2 := (WriteLibraryPath_stages scenarioA 200 [] (State.init zeroMemory)).2 (by decide)
  ⟨⟨h1.1, h1.2 (by decide)⟩, ⟨h2.1, h2.2 (by decide)⟩⟩

/-- C5. When the allocation gave an address and the cross-process write reports
a byte count other than the length `L` of the path (less or more),
`WriteLibraryPath` ends with `MemoryWriteMismatch`, and so does every run of
`InjectLibrary` that opened this handle, without any attempt to create a remote
thread. -/
theorem WriteLibraryPath_write_mismatch (w : World) (hProc : HANDLE) (libraryPath : CString)
    (halloc : w.VirtualAllocEx hProc (strlen libraryPath) ≠ 0)
    (hwrite : w.transferred hProc (w.VirtualAllocEx hProc (strlen libraryPath)) libraryPath
      ≠ strlen libraryPath) :
    (∀ s, (WriteLibraryPath w hProc libraryPath s).1 =
        Except.error InjectError.MemoryWriteMismatch) ∧
    (∀ procName memory,
      (FindProcessHandle w procName (State.init memory)).1 = Except.ok hProc →
      (InjectLibrary w procName libraryPath (State.init memory)).1 =
          Except.error InjectError.MemoryWriteMismatch ∧
      ∀ op ∈ (InjectLibrary w procName libraryPath (State.init memory)).2.trace,
        op.isCreateRemoteThread = false) := by
  have hstage : ∀ s, WriteLibraryPath w hProc libraryPath s =
      (Except.error InjectError.MemoryWriteMismatch,
        (WriteProcessMemory w hProc (w.VirtualAllocEx hProc (strlen libraryPath))
          (libraryPath ++ [0]) (strlen libraryPath)
          (VirtualAllocEx w hProc (strlen libraryPath) s).2).2) := by
    intro s
    rw [WriteLibraryPath_eq, if_neg halloc, if_pos hwrite]
  refine ⟨fun s => by rw [hstage], ?_⟩
  intro procName memory hfh
  obtain ⟨hconv, h0, hopen, hne⟩ := FindProcessHandle_ok_inv w procName _ hProc hfh
  subst hopen
  rw [InjectLibrary_of_handle w procName libraryPath _ _ _
    (FindProcessHandle_opened w procName (State.init memory) hconv h0 hne), hstage]
  simp [WriteProcessMemory, VirtualAllocEx, OpenProcess, CreateToolhelp32Snapshot, State.init,
    Op.isCreateRemoteThread]

/-- Witness of C5: the write transfers 17 of the 18 bytes. -/
theorem WriteLibraryPath_write_mismatch_witness :
    (WriteLibraryPath scenarioShort 200 payload_dll (State.init zeroMemory)).1 =
        Except.error InjectError.MemoryWriteMismatch ∧
    (InjectLibrary scenarioShort sample_exe payload_dll (State.init zeroMemory)).1 =
        Except.error InjectError.MemoryWriteMismatch ∧
    ∀ op ∈ (InjectLibrary scenarioShort sample_exe payload_dll (State.init zeroMemory)).2.trace,
      op.isCreateRemoteThread = false :=
  have h := WriteLibraryPath_write_mismatch scenarioShort 200 payload_dll (by decide) (by decide)
  ⟨h.1 (State.init zeroMemory), h.2 sample_exe zeroMemory rfl⟩

/-! ## The whole pipeline -/

/-- C7. When `InjectLibrary` reports success, the resource operations it
performed are exactly: take the snapshot, `OpenProcess` on the resolved
identifier, `VirtualAllocEx` in the target, `WriteProcessMemory` of the path to
the allocated address, `CreateRemoteThread` with start routine `LoadLibraryA`
and the allocated address as its argument, and `CloseHandle` on the process
handle. The process handle is closed exactly once, that is the only
`CloseHandle`, and the remote thread handle is still open at the end. -/
theorem InjectLibrary_success_sequence (w : World) (procName libraryPath : CString)
    (memory : HANDLE → Nat → Nat)
    (hok : (InjectLibrary w procName libraryPath (State.init memory)).1 = Except.ok ()) :
    ∃ pid hProc base hThread,
      pid = (FindProcessIdW w (wideName w procName).2 (State.init memory)).1 ∧
      hProc = w.OpenProcess pid ∧
      base = w.VirtualAllocEx hProc (strlen libraryPath) ∧
      hThread = w.CreateRemoteThread hProc LOAD_METHOD base ∧
      hThread ≠ 0 ∧
      (InjectLibrary w procName libraryPath (State.init memory)).2.trace =
        [Op.CreateToolhelp32Snapshot,
         Op.OpenProcess pid,
         Op.VirtualAllocEx hProc (strlen libraryPath),
         Op.WriteProcessMemory hProc base libraryPath (strlen libraryPath),
         Op.CreateRemoteThread hProc Routine.LoadLibraryA base,
         Op.CloseHandle hProc] ∧
      (InjectLibrary w procName libraryPath (State.init memory)).2.trace.count
        (Op.CloseHandle hProc) = 1 ∧
      (InjectLibrary w procName libraryPath (State.init memory)).2.trace.filter
        Op.isCloseHandle = [Op.CloseHandle hProc] ∧
      hThread ∈ (InjectLibrary w procName libraryPath (State.init memory)).2.handles := by
  obtain ⟨hconv, h0, hopen, halloc, hwrite, hthread⟩ :=
    InjectLibrary_ok_inv w procName libraryPath _ hok
  obtain ⟨_, htrace, hhandles⟩ :=
    InjectLibrary_success w procName libraryPath (State.init memory)
      hconv h0 hopen halloc hwrite hthread
  refine ⟨_, _, _, _, rfl, rfl, rfl, rfl, ?_, ?_, ?_, ?_, ?_⟩
  · simpa only [FindProcessIdW_eq] using hthread
  · simpa only [FindProcessIdW_eq, State.init, List.nil_append] using htrace
  · rw [htrace]
    simp [FindProcessIdW_eq, State.init, List.count_cons]
  · rw [htrace]
    simp [FindProcessIdW_eq, State.init, List.filter_cons, Op.isCloseHandle]
  · rw [hhandles]
    simp only [FindProcessIdW_eq, State.init, List.nil_append, List.erase_cons]
    split_ifs <;> simp_all

/-- Witness of C7: Scenario A. -/
theorem InjectLibrary_success_sequence_witness :
    ∃ pid hProc base hThread,
      pid = (FindProcessIdW scenarioA (wideName scenarioA sample_exe).2
        (State.init zeroMemory)).1 ∧
      hProc = scenarioA.OpenProcess pid ∧
      base = scenarioA.VirtualAllocEx hProc (strlen payload_dll) ∧
      hThread = scenarioA.CreateRemoteThread hProc LOAD_METHOD base ∧
      hThread ≠ 0 ∧
      (InjectLibrary scenarioA sample_exe payload_dll (State.init zeroMemory)).2.trace =
        [Op.CreateToolhelp32Snapshot,
         Op.OpenProcess pid,
         Op.VirtualAllocEx hProc (strlen payload_dll),
         Op.WriteProcessMemory hProc base payload_dll (strlen payload_dll),
         Op.CreateRemoteThread hProc Routine.LoadLibraryA base,
         Op.CloseHandle hProc] ∧
      (InjectLibrary scenarioA sample_exe payload_dll (State.init zeroMemory)).2.trace.count
        (Op.CloseHandle hProc) = 1 ∧
      (InjectLibrary scenarioA sample_exe payload_dll (State.init zeroMemory)).2.trace.filter
        Op.isCloseHandle = [Op.CloseHandle hProc] ∧
      hThread ∈ (InjectLibrary scenarioA sample_exe payload_dll (State.init zeroMemory)).2.handles :=
  InjectLibrary_success_sequence scenarioA sample_exe payload_dll zeroMemory rfl

/-- C4, the claim refuted. In Scenario A the path has 18 bytes, and the run,
which reports success, contains no allocation of 19 bytes and no write of 19
bytes. -/
theorem scenarioA_not_nineteen_bytes :
    strlen payload_dll = 18 ∧
    ¬ ((FindProcessId scenarioA sample_exe (State.init zeroMemory)).1 = Except.ok 4321 ∧
       (∃ hProc, Op.VirtualAllocEx hProc 19 ∈
          (InjectLibrary scenarioA sample_exe payload_dll (State.init zeroMemory)).2.trace) ∧
       (∃ hProc base bytes, Op.WriteProcessMemory hProc base bytes 19 ∈
          (InjectLibrary scenarioA sample_exe payload_dll (State.init zeroMemory)).2.trace) ∧
       (InjectLibrary scenarioA sample_exe payload_dll (State.init zeroMemory)).1 =
          Except.ok ()) := by
  refine ⟨rfl, ?_⟩
  rintro ⟨_, ⟨hProc, hmem⟩, _, _⟩
  have htrace : (InjectLibrary scenarioA sample_exe payload_dll (State.init zeroMemory)).2.trace =
      [Op.CreateToolhelp32Snapshot, Op.OpenProcess 4321, Op.VirtualAllocEx 200 18,
       Op.WriteProcessMemory 200 65536 payload_dll 18,
       Op.CreateRemoteThread 200 Routine.LoadLibraryA 65536, Op.CloseHandle 200] := by
    decide
  rw [htrace] at hmem
  simp at hmem

/-- C4 as amended. In Scenario A (an ASCII-compatible locale, "sample.exe"
running with identifier 4321, the 18-character path `C:\lib\payload.dll`, every
call succeeding) resolution returns 4321, staging allocates 18 bytes and writes
the 18 bytes of the path, the remote thread is created and `InjectLibrary`
reports success. -/
theorem scenarioA_pipeline (w : World) (memory : HANDLE → Nat → Nat)
    (hlocale : AsciiCompatible w.locale)
    (hrunning : (⟨4321, sample_exe⟩ : PROCESSENTRY32) ∈ w.processes)
    (hid : ∀ e ∈ w.processes, e.szExeFile = sample_exe → e.th32ProcessID = 4321)
    (hopen : w.OpenProcess 4321 ≠ 0)
    (halloc : w.VirtualAllocEx (w.OpenProcess 4321) 18 ≠ 0)
    (hwrite : w.transferred (w.OpenProcess 4321) (w.VirtualAllocEx (w.OpenProcess 4321) 18)
      payload_dll = 18)
    (hthread : w.CreateRemoteThread (w.OpenProcess 4321) LOAD_METHOD
      (w.VirtualAllocEx (w.OpenProcess 4321) 18) ≠ 0) :
    (FindProcessId w sample_exe (State.init memory)).1 = Except.ok 4321 ∧
    (InjectLibrary w sample_exe payload_dll (State.init memory)).2.trace =
      [Op.CreateToolhelp32Snapshot,
       Op.OpenProcess 4321,
       Op.VirtualAllocEx (w.OpenProcess 4321) 18,
       Op.WriteProcessMemory (w.OpenProcess 4321) (w.VirtualAllocEx (w.OpenProcess 4321) 18)
         payload_dll 18,
       Op.CreateRemoteThread (w.OpenProcess 4321) Routine.LoadLibraryA
         (w.VirtualAllocEx (w.OpenProcess 4321) 18),
       Op.CloseHandle (w.OpenProcess 4321)] ∧
    (InjectLibrary w sample_exe payload_dll (State.init memory)).1 = Except.ok () := by
  have hw : wideName w sample_exe = (strlen sample_exe + 1, sample_exe) :=
    wideName_ascii w hlocale sample_exe (by decide)
  have hconv : (wideName w sample_exe).1 = strlen sample_exe + 1 := by rw [hw]
  have hres : resolved w.processes (wideName w sample_exe).2 = 4321 := by
    rw [hw]
    show resolved w.processes sample_exe = 4321
    unfold resolved
    cases hf : firstMatch w.processes sample_exe with
    | none => exact absurd rfl ((firstMatch_eq_none _ _).1 hf _ hrunning)
    | some e =>
      obtain ⟨hname, pre, post, hsplit, _⟩ := (firstMatch_eq_some _ _ _).1 hf
      exact hid e (by simp [hsplit]) hname
  have hlen : strlen payload_dll = 18 := rfl
  obtain ⟨hok, htrace, _⟩ := InjectLibrary_success w sample_exe payload_dll (State.init memory)
    hconv (by rw [hres]; decide) (by rw [hres]; exact hopen)
    (by rw [hres, hlen]; exact halloc) (by rw [hres, hlen]; exact hwrite)
    (by rw [hres, hlen]; exact hthread)
  refine ⟨?_, ?_, hok⟩
  · rw [FindProcessId_of_converted w sample_exe _ hconv, hres]
  · rw [htrace, hres, hlen]
    rfl

/-- Witness of C4 as amended: the concrete Scenario A. -/
theorem scenarioA_pipeline_witness :
    (FindProcessId scenarioA sample_exe (State.init zeroMemory)).1 = Except.ok 4321 ∧
    (InjectLibrary scenarioA sample_exe payload_dll (State.init zeroMemory)).2.trace =
      [Op.CreateToolhelp32Snapshot,
       Op.OpenProcess 4321,
       Op.VirtualAllocEx (scenarioA.OpenProcess 4321) 18,
       Op.WriteProcessMemory (scenarioA.OpenProcess 4321)
         (scenarioA.VirtualAllocEx (scenarioA.OpenProcess 4321) 18) payload_dll 18,
       Op.CreateRemoteThread (scenarioA.OpenProcess 4321) Routine.LoadLibraryA
         (scenarioA.VirtualAllocEx (scenarioA.OpenProcess 4321) 18),
       Op.CloseHandle (scenarioA.OpenProcess 4321)] ∧
    (InjectLibrary scenarioA sample_exe payload_dll (State.init zeroMemory)).1 = Except.ok () :=
  scenarioA_pipeline scenarioA zeroMemory cLocale_asciiCompatible (by decide) (by decide)
    (by decide) (by decide) (by decide) (by decide)

end DLLInjector
